import Mathlib

/-!
Verification of the p2p_chat_rust core (crates/chat-core) against its
natural-language specification. The Rust code is shallowly embedded: pure
logic becomes Lean functions, the event loop's mutable state becomes explicit
state passing, machine integers (u64) become Nat, byte vectors become
List Nat, and fallible operations return Option or Except.
-/

namespace P2pChat

/-- Message routing mode. Modelled from the spec: the enum is matched on in
network.rs (variants Broadcast, and Direct with a target_peer_id) and
constructed in lib.rs, but its declaration is absent from the provided
types.rs; the spec gives message_type as Broadcast or Direct with a
target_peer_id. -/
inductive MessageType where
  | Broadcast : MessageType
  | Direct (target_peer_id : String) : MessageType
deriving DecidableEq

/-- A chat message, from types.rs, together with the message_type field that
lib.rs and network.rs require. String models Rust String, Nat models u64. -/
structure ChatMessage where
  id : String
  sender : String
  content : String
  timestamp : Nat
  message_type : MessageType
deriving DecidableEq

/-- Peer information, from types.rs. -/
structure PeerInfo where
  peer_id : String
  addresses : List String
  last_seen : Nat
deriving DecidableEq

/-- Network events, from types.rs. Modelled from the spec: the PeerListUpdated
variant is sent by lib.rs but absent from the provided types.rs; the spec
lists PeerListUpdated carrying a sequence of PeerInfo. -/
inductive NetworkEvent where
  | PeerDiscovered (info : PeerInfo) : NetworkEvent
  | PeerConnected (peer_id : String) : NetworkEvent
  | PeerDisconnected (peer_id : String) : NetworkEvent
  | MessageReceived (m : ChatMessage) : NetworkEvent
  | DhtBootstrapped : NetworkEvent
  | PeerListUpdated (peers : List PeerInfo) : NetworkEvent
deriving DecidableEq

/-- Commands accepted from the application, from lib.rs. -/
inductive ChatCommand where
  | SendBroadcast (content : String) : ChatCommand
  | SendDirect (peer_id : String) (message : String) : ChatCommand
  | ListPeers : ChatCommand
  | GetPeerList : ChatCommand

/-- JSON values, the target of the serde_json serialization of ChatMessage.
The wire payload is modelled at the JSON value level: serde_json prints a
value to bytes deterministically and unambiguously, so equality or
inequality of values corresponds to equality or inequality of payload
bytes. -/
inductive Json where
  | str (s : String) : Json
  | num (n : Nat) : Json
  | obj (fields : List (String × Json)) : Json

/-- serde serialization of MessageType (externally tagged representation
produced by derive(Serialize)): a unit variant becomes its name as a string,
a struct variant becomes a one-key object keyed by the variant name. -/
def serializeMessageType : MessageType → Json
  | .Broadcast => .str "Broadcast"
  | .Direct target_peer_id =>
      .obj [("Direct", .obj [("target_peer_id", .str target_peer_id)])]

/-- serde_json serialization of ChatMessage (derive(Serialize)): an object
with the struct fields in declaration order. -/
def serializeChatMessage (m : ChatMessage) : Json :=
  .obj [("id", .str m.id), ("sender", .str m.sender),
        ("content", .str m.content), ("timestamp", .num m.timestamp),
        ("message_type", serializeMessageType m.message_type)]

/-- Field lookup in a JSON object, by field name. -/
def jsonLookup : List (String × Json) → String → Option Json
  | [], _ => none
  | (k, v) :: rest, key => if k = key then some v else jsonLookup rest key

/-- Expect a JSON string. -/
def asStr : Json → Option String
  | .str s => some s
  | _ => none

/-- Expect a JSON number. -/
def asNat : Json → Option Nat
  | .num n => some n
  | _ => none

/-- serde deserialization of MessageType: the variant name as a plain string
for the unit variant, or a one-key object for the struct variant. -/
def deserializeMessageType : Json → Option MessageType
  | .str s => if s = "Broadcast" then some .Broadcast else none
  | .obj fields =>
      match jsonLookup fields "Direct" with
      | some (.obj inner) =>
          match jsonLookup inner "target_peer_id" with
          | some (.str t) => some (.Direct t)
          | _ => none
      | _ => none
  | _ => none

/-- serde_json deserialization of ChatMessage (derive(Deserialize)): every
field must be present with the right shape, otherwise the whole
deserialization fails. -/
def deserializeChatMessage : Json → Option ChatMessage
  | .obj fields => do
      let id ← jsonLookup fields "id" >>= asStr
      let sender ← jsonLookup fields "sender" >>= asStr
      let content ← jsonLookup fields "content" >>= asStr
      let timestamp ← jsonLookup fields "timestamp" >>= asNat
      let mt ← jsonLookup fields "message_type" >>= deserializeMessageType
      some ⟨id, sender, content, timestamp, mt⟩
  | _ => none

/-! ## Gossipsub message id (network.rs, message_id_fn)

The code hashes the payload bytes of a gossip message with the standard
library DefaultHasher (SipHash-1-3 with zero keys) and uses the decimal
string of the 64-bit result as the mesh-level message id. 64-bit machine
arithmetic is modelled on Nat with explicit reduction mod 2^64. -/

/-- 64-bit truncating addition. -/
def add64 (a b : Nat) : Nat := (a + b) % 2 ^ 64

/-- 64-bit left rotation. -/
def rotl64 (x n : Nat) : Nat := ((x <<< n) ||| (x >>> (64 - n))) % 2 ^ 64

/-- The four 64-bit words of SipHash internal state. -/
structure SipState where
  v0 : Nat
  v1 : Nat
  v2 : Nat
  v3 : Nat

/-- One SipHash round. -/
def sipround (s : SipState) : SipState :=
  let v0 := add64 s.v0 s.v1
  let v1 := rotl64 s.v1 13
  let v1 := v1 ^^^ v0
  let v0 := rotl64 v0 32
  let v2 := add64 s.v2 s.v3
  let v3 := rotl64 s.v3 16
  let v3 := v3 ^^^ v2
  let v0 := add64 v0 v3
  let v3 := rotl64 v3 21
  let v3 := v3 ^^^ v0
  let v2 := add64 v2 v1
  let v1 := rotl64 v1 17
  let v1 := v1 ^^^ v2
  let v2 := rotl64 v2 32
  ⟨v0, v1, v2, v3⟩

/-- Initial SipHash state for the zero keys used by DefaultHasher. -/
def sipInit : SipState :=
  ⟨0x736f6d6570736575, 0x646f72616e646f6d, 0x6c7967656e657261, 0x7465646279746573⟩

/-- Combine bytes little-endian into one word. -/
def leWord : List Nat → Nat
  | [] => 0
  | b :: rest => b % 256 + 256 * leWord rest

/-- The 8 little-endian bytes of a 64-bit value (the written length prefix). -/
def le64 (n : Nat) : List Nat :=
  [n % 256, n / 256 % 256, n / 256 ^ 2 % 256, n / 256 ^ 3 % 256,
   n / 256 ^ 4 % 256, n / 256 ^ 5 % 256, n / 256 ^ 6 % 256, n / 256 ^ 7 % 256]

/-- Absorb one 8-byte message word: xor into v3, one round (SipHash-1-3 uses
one compression round), xor into v0. -/
def sipCompress (s : SipState) (m : Nat) : SipState :=
  let s := ⟨s.v0, s.v1, s.v2, s.v3 ^^^ m⟩
  let s := sipround s
  ⟨s.v0 ^^^ m, s.v1, s.v2, s.v3⟩

/-- Absorb all complete 8-byte words of the stream; return the state and the
trailing bytes (fewer than 8). -/
def sipCompressStream (s : SipState) : List Nat → SipState × List Nat
  | b0 :: b1 :: b2 :: b3 :: b4 :: b5 :: b6 :: b7 :: rest =>
      sipCompressStream (sipCompress s (leWord [b0, b1, b2, b3, b4, b5, b6, b7])) rest
  | rest => (s, rest)

/-- SipHash-1-3 with zero keys of a byte stream: absorb complete words, then
the final word holding the trailing bytes and the stream length in the top
byte, then the finalization (xor 0xff into v2, three rounds, xor the state
words). This is std's DefaultHasher. -/
def siphash13 (bytes : List Nat) : Nat :=
  let p := sipCompressStream sipInit bytes
  let b := ((bytes.length % 256) <<< 56) ||| leWord p.2
  let s := sipCompress p.1 b
  let s : SipState := ⟨s.v0, s.v1, s.v2 ^^^ 0xff, s.v3⟩
  let s := sipround (sipround (sipround s))
  s.v0 ^^^ s.v1 ^^^ s.v2 ^^^ s.v3

/-- Hashing a Vec of bytes with DefaultHasher: Hash for a byte slice first
writes the length prefix (a 64-bit usize, little-endian) and then the bytes
themselves into the hasher's stream. -/
def defaultHasherOfBytes (data : List Nat) : Nat :=
  siphash13 (le64 data.length ++ data)

/-- A raw gossipsub message as the mesh delivers it (libp2p
gossipsub Message): optional source peer, payload bytes, optional sequence
number, topic. -/
structure GossipRawMessage where
  source : Option String
  data : List Nat
  sequence_number : Option Nat
  topic : String

/-- network.rs message_id_fn: hash only the payload bytes of the message with
DefaultHasher and render the 64-bit result in decimal. -/
def message_id_fn (message : GossipRawMessage) : String :=
  toString (defaultHasherOfBytes message.data)

/-! ## The peer registry (connected_peers : HashMap of PeerId to PeerInfo)

Rust's HashMap is modelled as an association list kept in ascending key
order: iteration order of a HashMap is derived from the keys (via their
hashes), never from insertion history, and ascending key order is the
deterministic stand-in for that key-derived order. -/

/-- HashMap lookup. -/
def mapLookup : List (String × PeerInfo) → String → Option PeerInfo
  | [], _ => none
  | (k, v) :: rest, key => if k = key then some v else mapLookup rest key

/-- HashMap insert (replacing any entry with the same key), keeping the
key-derived iteration order. -/
def mapInsert (key : String) (v : PeerInfo) : List (String × PeerInfo) → List (String × PeerInfo)
  | [] => [(key, v)]
  | (k, w) :: rest =>
      if key < k then (key, v) :: (k, w) :: rest
      else if key = k then (key, v) :: rest
      else (k, w) :: mapInsert key v rest

/-- HashMap remove. -/
def mapRemove (key : String) (l : List (String × PeerInfo)) : List (String × PeerInfo) :=
  l.filter fun kv => !(kv.1 == key)

/-- Result of SystemTime::now().duration_since(UNIX_EPOCH): an error when the
clock reads earlier than the Unix epoch. -/
def SystemClock : Type := Except Unit Nat

/-- Rust unwrap_or_default().as_secs() on the clock query: the error branch
collapses to the default duration, 0 seconds. -/
def unwrapOrDefaultSecs : Except Unit Nat → Nat
  | .ok t => t
  | .error _ => 0

/-- A gossipsub message as seen by the behaviour handler, its payload
modelled at the JSON value level. -/
structure GossipMessage where
  source : Option String
  data : Json
  topic : String

/-- Identify info exchanged on connect: protocol version string and the
sender's listen addresses. -/
structure IdentifyInfo where
  protocol_version : String
  listen_addrs : List String

/-- The protocol version string this node announces (identify Config in
network.rs). -/
def localProtocolVersion : String := "/p2p-chat/1.0.0"

/-- The behaviour events dispatched by handle_behaviour_event in network.rs
(the variants the handler distinguishes). -/
inductive ChatBehaviourEvent where
  | KademliaBootstrapOk (peer : String) : ChatBehaviourEvent
  | KademliaBootstrapErr : ChatBehaviourEvent
  | KademliaRoutingUpdated (peer : String) : ChatBehaviourEvent
  | IdentifyReceived (peer_id : String) (info : IdentifyInfo) : ChatBehaviourEvent
  | Ping (peer : String) (ok : Bool) : ChatBehaviourEvent
  | GossipsubMessage (message : GossipMessage) : ChatBehaviourEvent

/-- The swarm events dispatched by handle_swarm_event in network.rs. -/
inductive SwarmEvent where
  | NewListenAddr (address : String) : SwarmEvent
  | Behaviour (event : ChatBehaviourEvent) : SwarmEvent
  | ConnectionEstablished (peer_id : String) : SwarmEvent
  | ConnectionClosed (peer_id : String) : SwarmEvent
  | IncomingConnection : SwarmEvent
  | OutgoingConnectionError (peer_id : Option String) : SwarmEvent
  | IncomingConnectionError : SwarmEvent

/-- The observable state of P2pNetwork: the connected_peers registry, the
Kademlia routing-table additions, the events sent on event_sender (in send
order) and the gossipsub publish calls (topic and payload, in call order). -/
structure P2pNetwork where
  connected_peers : List (String × PeerInfo)
  routing_table : List (String × String)
  events : List NetworkEvent
  published : List (String × Json)

/-- network.rs handle_behaviour_event: bootstrap progress emits
DhtBootstrapped, bootstrap failure is only logged, identify Received feeds
addresses to Kademlia, upserts a PeerInfo and emits PeerDiscovered, ping is
only logged, and a gossipsub message is deserialized as a ChatMessage —
emitting MessageReceived on success and doing nothing at all on failure. -/
def handle_behaviour_event (clock : Except Unit Nat) (s : P2pNetwork) :
    ChatBehaviourEvent → P2pNetwork
  | .KademliaBootstrapOk _ => { s with events := s.events ++ [.DhtBootstrapped] }
  | .KademliaBootstrapErr => s
  | .KademliaRoutingUpdated _ => s
  | .IdentifyReceived peer_id info =>
      let addresses := info.listen_addrs
      let peer_info : PeerInfo := ⟨peer_id, addresses, unwrapOrDefaultSecs clock⟩
      { s with
        routing_table := s.routing_table ++ info.listen_addrs.map fun a => (peer_id, a)
        connected_peers := mapInsert peer_id peer_info s.connected_peers
        events := s.events ++ [.PeerDiscovered peer_info] }
  | .Ping _ _ => s
  | .GossipsubMessage message =>
      match deserializeChatMessage message.data with
      | some chat_message => { s with events := s.events ++ [.MessageReceived chat_message] }
      | none => s

/-- network.rs handle_swarm_event: ConnectionEstablished inserts a basic
PeerInfo when the peer is unknown and emits PeerConnected, ConnectionClosed
removes the peer and emits PeerDisconnected, behaviour events are dispatched,
everything else is only logged. -/
def handle_swarm_event (clock : Except Unit Nat) (s : P2pNetwork) :
    SwarmEvent → P2pNetwork
  | .NewListenAddr _ => s
  | .Behaviour event => handle_behaviour_event clock s event
  | .ConnectionEstablished peer_id =>
      match mapLookup s.connected_peers peer_id with
      | some _ => { s with events := s.events ++ [.PeerConnected peer_id] }
      | none =>
          let peer_info : PeerInfo := ⟨peer_id, [], unwrapOrDefaultSecs clock⟩
          { s with
            connected_peers := mapInsert peer_id peer_info s.connected_peers
            events := s.events ++ [.PeerConnected peer_id] }
  | .ConnectionClosed peer_id =>
      { s with
        connected_peers := mapRemove peer_id s.connected_peers
        events := s.events ++ [.PeerDisconnected peer_id] }
  | .IncomingConnection => s
  | .OutgoingConnectionError _ => s
  | .IncomingConnectionError => s

/-- network.rs publish_message: a Broadcast goes to the shared topic "chat",
a Direct goes to the topic "direct-" followed by the target peer id; the
payload is the serde_json serialization of the message. The publish_ok flag
models whether the gossipsub publish call succeeds (it fails, for example,
with no mesh peers on the topic); on failure the function returns an
error. -/
def publish_message (publish_ok : Bool) (s : P2pNetwork) (message : ChatMessage) :
    P2pNetwork × Except String Unit :=
  match message.message_type with
  | .Broadcast =>
      let topic := "chat"
      let data := serializeChatMessage message
      let s := { s with published := s.published ++ [(topic, data)] }
      if publish_ok then (s, .ok ())
      else (s, .error "Failed to publish broadcast message")
  | .Direct target_peer_id =>
      let topic := "direct-" ++ target_peer_id
      let data := serializeChatMessage message
      let s := { s with published := s.published ++ [(topic, data)] }
      if publish_ok then (s, .ok ())
      else (s, .error "Failed to publish direct message")

/-- network.rs subscribe_to_chat: subscribe to the shared "chat" topic and to
this node's own private topic "direct-" followed by the local peer id. -/
def subscribe_to_chat (local_peer_id : String) : List String :=
  ["chat", "direct-" ++ local_peer_id]

/-- network.rs get_peer_list: the values of the connected_peers HashMap, in
its iteration order. -/
def get_peer_list (s : P2pNetwork) : List PeerInfo :=
  s.connected_peers.map fun kv => kv.2

/-- The command arm of the select loop in lib.rs run_chat_network: build a
ChatMessage (fresh uuid, this node's username, the given content, the clock
reading defaulted to 0 on error) and publish it, discarding the publish
result; ListPeers and GetPeerList emit a PeerListUpdated snapshot. -/
def handle_command (publish_ok : Bool) (username : String) (new_uuid : String)
    (clock : Except Unit Nat) (s : P2pNetwork) : ChatCommand → P2pNetwork
  | .SendBroadcast content =>
      let message : ChatMessage :=
        ⟨new_uuid, username, content, unwrapOrDefaultSecs clock, .Broadcast⟩
      (publish_message publish_ok s message).1
  | .SendDirect peer_id content =>
      let message : ChatMessage :=
        ⟨new_uuid, username, content, unwrapOrDefaultSecs clock, .Direct peer_id⟩
      (publish_message publish_ok s message).1
  | .ListPeers =>
      { s with events := s.events ++ [.PeerListUpdated (get_peer_list s)] }
  | .GetPeerList =>
      { s with events := s.events ++ [.PeerListUpdated (get_peer_list s)] }

/-! ## Identity store (network.rs, load_or_create_keypair)

The filesystem is modelled as an association list from path to byte content;
the external libp2p keypair codec (protobuf encode/decode) and ed25519 key
generation are parameters of the embedding, since their internals live
outside this repository. -/

/-- Model filesystem: file contents by path. -/
def FileSystem : Type := List (String × List Nat)

/-- Path::exists plus fs::read, folded into one lookup. -/
def fsLookup : List (String × List Nat) → String → Option (List Nat)
  | [], _ => none
  | (p, bytes) :: rest, path => if p = path then some bytes else fsLookup rest path

/-- fs::write: create or overwrite the file at the path. -/
def fsWrite (fs : List (String × List Nat)) (path : String) (bytes : List Nat) :
    List (String × List Nat) :=
  (path, bytes) :: fs.filter fun f => !(f.1 == path)

/-- network.rs load_or_create_keypair, over an abstract keypair type K with
the protobuf codec (decode may fail, encode may fail) and the ed25519
generator as parameters: when the key file exists its bytes are decoded — a
decode failure is an error and nothing is written; when it does not exist a
fresh keypair is generated, encoded and written. Returns the result together
with the filesystem after the call. -/
def load_or_create_keypair {K : Type} (decode : List Nat → Option K)
    (encode : K → Option (List Nat)) (generate : K)
    (fs : List (String × List Nat)) (key_file : String) :
    Except String K × List (String × List Nat) :=
  match fsLookup fs key_file with
  | some key_bytes =>
      match decode key_bytes with
      | some keypair => (.ok keypair, fs)
      | none => (.error "Failed to decode keypair", fs)
  | none =>
      match encode generate with
      | some key_bytes => (.ok generate, fsWrite fs key_file key_bytes)
      | none => (.error "Failed to encode keypair", fs)

/-- DhtBootstrapped recognizer, for counting emissions. -/
def isDhtBootstrapped : NetworkEvent → Bool
  | .DhtBootstrapped => true
  | _ => false

/-- Successful-bootstrap-round recognizer on behaviour events. -/
def isBootstrapOk : ChatBehaviourEvent → Bool
  | .KademliaBootstrapOk _ => true
  | _ => false

/-- The events a single behaviour event makes the handler send outward. -/
def behaviour_emits (clock : Except Unit Nat) : ChatBehaviourEvent → List NetworkEvent
  | .KademliaBootstrapOk _ => [.DhtBootstrapped]
  | .KademliaBootstrapErr => []
  | .KademliaRoutingUpdated _ => []
  | .IdentifyReceived peer_id info =>
      [.PeerDiscovered ⟨peer_id, info.listen_addrs, unwrapOrDefaultSecs clock⟩]
  | .Ping _ _ => []
  | .GossipsubMessage message =>
      match deserializeChatMessage message.data with
      | some chat_message => [.MessageReceived chat_message]
      | none => []

/-- Handling a whole run of behaviour events, in order. -/
def handle_behaviour_events (clock : Except Unit Nat) (s : P2pNetwork)
    (es : List ChatBehaviourEvent) : P2pNetwork :=
  es.foldl (handle_behaviour_event clock) s

/-- The empty network state (fresh P2pNetwork before any event). -/
def initState : P2pNetwork := ⟨[], [], [], []⟩

/-- A one-byte test codec for exercising the identity store: a keypair is a
single byte. -/
def decodeOneByte : List Nat → Option Nat
  | [n] => some n
  | _ => none

/-- Encoder of the one-byte test codec. -/
def encodeOneByte (k : Nat) : Option (List Nat) := some [k]

/-! ## Theorems -/

/-- C1: for every ChatMessage m, deserializing the serde_json serialization
of m yields m again, field for field (id, sender, content, timestamp,
message_type). -/
theorem chatMessage_roundTrip (m : ChatMessage) :
    deserializeChatMessage (serializeChatMessage m) = some m := by
  cases m with
  | mk id sender content timestamp mt => cases mt <;> rfl

/-- C2: the mesh-level message id is a deterministic function of the payload
bytes alone — two gossip messages with identical payload bytes get equal ids
whatever their source, sequence number or topic; two ChatMessages whose
application-level id fields differ serialize to different payloads; and the
receive handler performs no application-id merging — it surfaces one
MessageReceived per delivered payload. -/
theorem message_id_payload_based :
    (∀ m1 m2 : GossipRawMessage, m1.data = m2.data →
      message_id_fn m1 = message_id_fn m2)
  ∧ (∀ c1 c2 : ChatMessage, c1.id ≠ c2.id →
      serializeChatMessage c1 ≠ serializeChatMessage c2)
  ∧ (∀ (clock : Except Unit Nat) (s : P2pNetwork) (g1 g2 : GossipMessage)
      (c1 c2 : ChatMessage), deserializeChatMessage g1.data = some c1 →
      deserializeChatMessage g2.data = some c2 →
      (handle_behaviour_event clock
          (handle_behaviour_event clock s (.GossipsubMessage g1))
          (.GossipsubMessage g2)).events
        = s.events ++ [.MessageReceived c1, .MessageReceived c2]) := by
  refine ⟨?_, ?_, ?_⟩
  · intro m1 m2 h
    simp [message_id_fn, h]
  · intro c1 c2 h heq
    simp only [serializeChatMessage, Json.obj.injEq, List.cons.injEq,
      Prod.mk.injEq, Json.str.injEq] at heq
    exact h heq.1.2
  · intro clock s g1 g2 c1 c2 h1 h2
    simp [handle_behaviour_event, h1, h2]

/-- C2 witness: concrete instances of each conjunct. -/
theorem message_id_payload_based_witness :
    message_id_fn ⟨some "peerA", [1, 2, 3], some 1, "chat"⟩
      = message_id_fn ⟨none, [1, 2, 3], some 99, "topicB"⟩
  ∧ serializeChatMessage ⟨"uuid-1", "alice", "hi", 7, .Broadcast⟩
      ≠ serializeChatMessage ⟨"uuid-2", "alice", "hi", 7, .Broadcast⟩
  ∧ (handle_behaviour_event (.ok 0)
        (handle_behaviour_event (.ok 0) initState
          (.GossipsubMessage ⟨none,
            serializeChatMessage ⟨"uuid-1", "alice", "hi", 7, .Broadcast⟩, "chat"⟩))
        (.GossipsubMessage ⟨none,
          serializeChatMessage ⟨"uuid-2", "alice", "hi", 7, .Broadcast⟩, "chat"⟩)).events
      = initState.events ++ [.MessageReceived ⟨"uuid-1", "alice", "hi", 7, .Broadcast⟩,
          .MessageReceived ⟨"uuid-2", "alice", "hi", 7, .Broadcast⟩] :=
  ⟨message_id_payload_based.1 _ _ rfl,
   message_id_payload_based.2.1 _ _ (by decide),
   message_id_payload_based.2.2 (.ok 0) initState _ _ _ _ rfl rfl⟩

/-- Reading back a freshly written file yields the written bytes. -/
theorem fsLookup_fsWrite (fs : List (String × List Nat)) (path : String)
    (bytes : List Nat) : fsLookup (fsWrite fs path bytes) path = some bytes := by
  simp [fsWrite, fsLookup]

/-- C3: load_or_create_keypair returns the decoded keypair and leaves the
filesystem untouched when the key file exists and decodes (so repeated calls
with the same path return the same keypair, hence the same PeerId); when the
file exists but fails to decode it returns an error without regenerating or
writing anything; when the file is absent it generates a fresh keypair,
persists it at the path and returns it; and whenever a call succeeds, a
second call with the same path returns the very same keypair, given that the
external codec round-trips. -/
theorem load_or_create_keypair_spec {K : Type} (decode : List Nat → Option K)
    (encode : K → Option (List Nat)) (generate : K)
    (fs : List (String × List Nat)) (key_file : String) :
    (∀ key_bytes keypair, fsLookup fs key_file = some key_bytes →
      decode key_bytes = some keypair →
      load_or_create_keypair decode encode generate fs key_file = (.ok keypair, fs))
  ∧ (∀ key_bytes, fsLookup fs key_file = some key_bytes →
      decode key_bytes = none →
      load_or_create_keypair decode encode generate fs key_file
        = (.error "Failed to decode keypair", fs))
  ∧ (∀ key_bytes, fsLookup fs key_file = none →
      encode generate = some key_bytes →
      load_or_create_keypair decode encode generate fs key_file
        = (.ok generate, fsWrite fs key_file key_bytes))
  ∧ ((∀ k bytes, encode k = some bytes → decode bytes = some k) →
      ∀ keypair fs1,
        load_or_create_keypair decode encode generate fs key_file = (.ok keypair, fs1) →
        load_or_create_keypair decode encode generate fs1 key_file = (.ok keypair, fs1)) := by
  refine ⟨?_, ?_, ?_, ?_⟩
  · intro key_bytes keypair h1 h2
    simp [load_or_create_keypair, h1, h2]
  · intro key_bytes h1 h2
    simp [load_or_create_keypair, h1, h2]
  · intro key_bytes h1 h2
    simp [load_or_create_keypair, h1, h2]
  · intro hrt keypair fs1 hcall
    cases hfs : fsLookup fs key_file with
    | some key_bytes =>
        cases hdec : decode key_bytes with
        | some kp =>
            simp [load_or_create_keypair, hfs, hdec] at hcall
            obtain ⟨rfl, rfl⟩ := hcall
            simp [load_or_create_keypair, hfs, hdec]
        | none => simp [load_or_create_keypair, hfs, hdec] at hcall
    | none =>
        cases henc : encode generate with
        | some key_bytes =>
            simp [load_or_create_keypair, hfs, henc] at hcall
            obtain ⟨rfl, rfl⟩ := hcall
            simp [load_or_create_keypair, fsLookup_fsWrite, hrt generate key_bytes henc]
        | none => simp [load_or_create_keypair, hfs, henc] at hcall

/-- C3 witness: with a concrete codec (a keypair is one byte), a fresh path
generates and persists, a present decodable file is returned as is, a
present corrupt file is a fatal error without a write, and the second call
after a fresh generation returns the same keypair. -/
theorem load_or_create_keypair_witness :
    load_or_create_keypair decodeOneByte encodeOneByte 7 [] "peer_key.dat"
      = (.ok 7, fsWrite [] "peer_key.dat" [7])
  ∧ load_or_create_keypair decodeOneByte encodeOneByte 9
      [("peer_key.dat", [5])] "peer_key.dat" = (.ok 5, [("peer_key.dat", [5])])
  ∧ load_or_create_keypair decodeOneByte encodeOneByte 9
      [("peer_key.dat", [5, 6])] "peer_key.dat"
      = (.error "Failed to decode keypair", [("peer_key.dat", [5, 6])])
  ∧ load_or_create_keypair decodeOneByte encodeOneByte 7
      (fsWrite [] "peer_key.dat" [7]) "peer_key.dat"
      = (.ok 7, fsWrite [] "peer_key.dat" [7]) :=
  ⟨(load_or_create_keypair_spec decodeOneByte encodeOneByte 7 [] "peer_key.dat").2.2.1
      [7] rfl rfl,
   (load_or_create_keypair_spec decodeOneByte encodeOneByte 9
      [("peer_key.dat", [5])] "peer_key.dat").1 [5] 5 rfl rfl,
   (load_or_create_keypair_spec decodeOneByte encodeOneByte 9
      [("peer_key.dat", [5, 6])] "peer_key.dat").2.1 [5, 6] rfl rfl,
   (load_or_create_keypair_spec decodeOneByte encodeOneByte 7 [] "peer_key.dat").2.2.2
      (by intro k bytes h; simp [encodeOneByte] at h; simp [← h, decodeOneByte])
      7 (fsWrite [] "peer_key.dat" [7]) rfl⟩

/-- Removal really removes: looking up a removed key finds nothing. -/
theorem mapLookup_mapRemove (l : List (String × PeerInfo)) (p : String) :
    mapLookup (mapRemove p l) p = none := by
  induction l with
  | nil => rfl
  | cons kv rest ih =>
      by_cases h : kv.1 = p
      · simpa [mapRemove, List.filter_cons, h] using ih
      · simpa [mapRemove, List.filter_cons, mapLookup, h] using ih

/-- C4: handling ConnectionEstablished for a peer and then ConnectionClosed
for the same peer leaves the connected-peers map without an entry for that
peer, and the close emits a PeerDisconnected event for it. -/
theorem connection_established_then_closed (clock : Except Unit Nat)
    (s : P2pNetwork) (p : String) :
    mapLookup (handle_swarm_event clock
        (handle_swarm_event clock s (.ConnectionEstablished p))
        (.ConnectionClosed p)).connected_peers p = none
  ∧ (handle_swarm_event clock
        (handle_swarm_event clock s (.ConnectionEstablished p))
        (.ConnectionClosed p)).events
      = (handle_swarm_event clock s (.ConnectionEstablished p)).events
          ++ [.PeerDisconnected p] := by
  constructor
  · simp [handle_swarm_event, mapLookup_mapRemove]
  · simp [handle_swarm_event]

/-- C5: SendBroadcast publishes a Broadcast-typed ChatMessage to the shared
"chat" topic, SendDirect publishes a Direct-typed ChatMessage (carrying the
target peer id) to that peer's private topic "direct-" followed by the peer
id, and a node subscribes exactly to the shared topic and to its own private
topic. -/
theorem command_topics (publish_ok : Bool) (username new_uuid : String)
    (clock : Except Unit Nat) (s : P2pNetwork) (content peer_id self : String) :
    (handle_command publish_ok username new_uuid clock s (.SendBroadcast content)).published
      = s.published ++ [("chat", serializeChatMessage
          ⟨new_uuid, username, content, unwrapOrDefaultSecs clock, .Broadcast⟩)]
  ∧ (handle_command publish_ok username new_uuid clock s (.SendDirect peer_id content)).published
      = s.published ++ [("direct-" ++ peer_id, serializeChatMessage
          ⟨new_uuid, username, content, unwrapOrDefaultSecs clock, .Direct peer_id⟩)]
  ∧ subscribe_to_chat self = ["chat", "direct-" ++ self] := by
  refine ⟨?_, ?_, rfl⟩ <;> cases publish_ok <;> rfl

/-- The behaviour handler only appends its emissions to the event log. -/
theorem handle_behaviour_event_events (clock : Except Unit Nat) (s : P2pNetwork)
    (e : ChatBehaviourEvent) :
    (handle_behaviour_event clock s e).events = s.events ++ behaviour_emits clock e := by
  cases e with
  | GossipsubMessage message =>
      cases hdes : deserializeChatMessage message.data <;>
        simp [handle_behaviour_event, behaviour_emits, hdes]
  | KademliaBootstrapOk peer => simp [handle_behaviour_event, behaviour_emits]
  | KademliaBootstrapErr => simp [handle_behaviour_event, behaviour_emits]
  | KademliaRoutingUpdated peer => simp [handle_behaviour_event, behaviour_emits]
  | IdentifyReceived peer_id info => simp [handle_behaviour_event, behaviour_emits]
  | Ping peer ok => simp [handle_behaviour_event, behaviour_emits]

/-- A behaviour event's emissions contain one DhtBootstrapped exactly when it
is a successful bootstrap round, otherwise none. -/
theorem behaviour_emits_countDht (clock : Except Unit Nat) (e : ChatBehaviourEvent) :
    (behaviour_emits clock e).countP isDhtBootstrapped
      = if isBootstrapOk e then 1 else 0 := by
  cases e with
  | GossipsubMessage message =>
      cases hdes : deserializeChatMessage message.data <;>
        simp [behaviour_emits, isBootstrapOk, isDhtBootstrapped, hdes]
  | KademliaBootstrapOk peer => rfl
  | KademliaBootstrapErr => rfl
  | KademliaRoutingUpdated peer => rfl
  | IdentifyReceived peer_id info => rfl
  | Ping peer ok => rfl

/-- C6 (amended): over any run of behaviour events, the number of
DhtBootstrapped events emitted equals the number of successful
bootstrap-round events handled — one per successful round, so none at all
when no round ever succeeds — and a failed bootstrap round leaves the state
entirely unchanged (the failure is logged, not fatal, and the loop keeps
running). -/
theorem dht_bootstrapped_per_success (clock : Except Unit Nat) (s : P2pNetwork)
    (es : List ChatBehaviourEvent) :
    (handle_behaviour_events clock s es).events.countP isDhtBootstrapped
      = s.events.countP isDhtBootstrapped + es.countP isBootstrapOk
  ∧ ∀ s1 : P2pNetwork, handle_behaviour_event clock s1 .KademliaBootstrapErr = s1 := by
  constructor
  · induction es generalizing s with
    | nil => simp [handle_behaviour_events]
    | cons e rest ih =>
        have step := ih (handle_behaviour_event clock s e)
        simp only [handle_behaviour_events, List.foldl] at step ⊢
        rw [step, handle_behaviour_event_events, List.countP_append,
          behaviour_emits_countDht, List.countP_cons]
        cases hbe : isBootstrapOk e
        · simp [hbe]
        · simp [hbe]
          omega
  · intro s1
    rfl

/-- C6 counterexample: a bootstrap attempt whose query reports two successful
rounds makes the handler emit DhtBootstrapped twice, not exactly once — the
code has no once-per-attempt latch. -/
theorem dht_bootstrapped_twice :
    (handle_behaviour_events (.ok 0) initState
        [.KademliaBootstrapOk "p", .KademliaBootstrapOk "p"]).events.countP
      isDhtBootstrapped = 2 := rfl

/-- C7 (amended): the identify handler performs no protocol-version check:
for every received identify message, whatever its protocol_version, it adds
all received addresses to the Kademlia routing table, upserts a PeerInfo for
the sender and emits PeerDiscovered. -/
theorem identify_received_spec (clock : Except Unit Nat) (s : P2pNetwork)
    (peer_id : String) (info : IdentifyInfo) :
    handle_behaviour_event clock s (.IdentifyReceived peer_id info)
      = { s with
          routing_table := s.routing_table ++ info.listen_addrs.map fun a => (peer_id, a)
          connected_peers := mapInsert peer_id
            ⟨peer_id, info.listen_addrs, unwrapOrDefaultSecs clock⟩ s.connected_peers
          events := s.events ++ [.PeerDiscovered
            ⟨peer_id, info.listen_addrs, unwrapOrDefaultSecs clock⟩] } := rfl

/-- C7 counterexample: an identify message whose protocol version differs
from the local "/p2p-chat/1.0.0" is not rejected: the registry is upserted
and PeerDiscovered is emitted all the same. -/
theorem identify_no_version_check :
    "/other-proto/9.9" ≠ localProtocolVersion
  ∧ (handle_behaviour_event (.ok 5) initState
        (.IdentifyReceived "peerX" ⟨"/other-proto/9.9", ["addr1"]⟩)).events
      = [.PeerDiscovered ⟨"peerX", ["addr1"], 5⟩]
  ∧ mapLookup (handle_behaviour_event (.ok 5) initState
        (.IdentifyReceived "peerX" ⟨"/other-proto/9.9", ["addr1"]⟩)).connected_peers
      "peerX" = some ⟨"peerX", ["addr1"], 5⟩ := by
  refine ⟨by decide, rfl, rfl⟩

/-- C8: an inbound gossip payload that fails to deserialize as a ChatMessage
is silently dropped: the handler returns its state completely unchanged — no
event of any kind is emitted, the peer registry is untouched, and no error
escapes the handler. -/
theorem malformed_payload_dropped (clock : Except Unit Nat) (s : P2pNetwork)
    (message : GossipMessage)
    (h : deserializeChatMessage message.data = none) :
    handle_behaviour_event clock s (.GossipsubMessage message) = s := by
  simp [handle_behaviour_event, h]

/-- C8 witness: a JSON number is not a ChatMessage and its delivery leaves
the fresh state exactly as it was. -/
theorem malformed_payload_dropped_witness :
    deserializeChatMessage (Json.num 0) = none
  ∧ handle_behaviour_event (.ok 0) initState
      (.GossipsubMessage ⟨none, Json.num 0, "chat"⟩) = initState :=
  ⟨rfl, malformed_payload_dropped (.ok 0) initState ⟨none, Json.num 0, "chat"⟩ rfl⟩

/-- C9 (amended): ListPeers emits one PeerListUpdated event carrying the
registry snapshot — exactly the PeerInfo values currently in the
connected-peers map (an entry is in the snapshot precisely when it is in the
map), in the map's key-derived iteration order; a Rust HashMap iterates in
an order derived from its keys, not in insertion order. -/
theorem list_peers_snapshot (publish_ok : Bool) (username new_uuid : String)
    (clock : Except Unit Nat) (s : P2pNetwork) :
    (handle_command publish_ok username new_uuid clock s .ListPeers).events
      = s.events ++ [.PeerListUpdated (get_peer_list s)]
  ∧ ∀ info : PeerInfo, info ∈ get_peer_list s ↔ ∃ k, (k, info) ∈ s.connected_peers := by
  constructor
  · rfl
  · intro info
    simp only [get_peer_list, List.mem_map, Prod.exists]
    constructor
    · rintro ⟨k, v, hmem, rfl⟩
      exact ⟨k, hmem⟩
    · rintro ⟨k, hmem⟩
      exact ⟨k, info, hmem, rfl⟩

/-- C9 counterexample: connecting peer "b" and then peer "a" (insertion
order b, a) and issuing ListPeers emits the snapshot in the map's
key-derived order (a before b), not in insertion order. -/
theorem list_peers_not_insertion_order :
    (handle_command true "u" "uuid" (.ok 0)
        (handle_swarm_event (.ok 0)
          (handle_swarm_event (.ok 0) initState (.ConnectionEstablished "b"))
          (.ConnectionEstablished "a"))
        .ListPeers).events
      = [.PeerConnected "b", .PeerConnected "a",
         .PeerListUpdated [⟨"a", [], 0⟩, ⟨"b", [], 0⟩]]
  ∧ [PeerInfo.mk "a" [] 0, PeerInfo.mk "b" [] 0]
      ≠ [PeerInfo.mk "b" [] 0, PeerInfo.mk "a" [] 0] := by
  constructor
  · simp [handle_command, handle_swarm_event, mapLookup, mapInsert,
      get_peer_list, initState, unwrapOrDefaultSecs]
    decide
  · decide

/-- C10: command handling is total and absorbs clock and publish failures:
even when the system clock reads earlier than the Unix epoch (the error
branch of the clock query), SendBroadcast and SendDirect still construct
their ChatMessage — with timestamp 0 — and hand it to publish_message, the
publish result is discarded (the state a command yields does not depend on
whether the publish succeeded), and a failed publish still records the
attempt and ends the iteration normally. -/
theorem send_commands_total (publish_ok : Bool) (username new_uuid : String)
    (s : P2pNetwork) (content peer_id : String) :
    handle_command publish_ok username new_uuid (.error ()) s (.SendBroadcast content)
      = (publish_message publish_ok s ⟨new_uuid, username, content, 0, .Broadcast⟩).1
  ∧ handle_command publish_ok username new_uuid (.error ()) s (.SendDirect peer_id content)
      = (publish_message publish_ok s ⟨new_uuid, username, content, 0, .Direct peer_id⟩).1
  ∧ handle_command true username new_uuid (.error ()) s (.SendBroadcast content)
      = handle_command false username new_uuid (.error ()) s (.SendBroadcast content)
  ∧ (handle_command false username new_uuid (.error ()) s (.SendBroadcast content)).published
      = s.published ++ [("chat",
          serializeChatMessage ⟨new_uuid, username, content, 0, .Broadcast⟩)] := by
  refine ⟨rfl, rfl, rfl, rfl⟩

end P2pChat
